import Mathlib

/-!
Shallow embedding of the `courses` app (files `courses/models.py` and
`courses/views.py` of the repository): the relational data model, the
content-type registry, and the ownership-scoped CRUD view handlers, together
with theorems settling the specification claims about them.

Conventions of the embedding:
* each Django model becomes a structure holding the columns the views read;
  `auto_now` timestamps are omitted (no view logic reads them);
* the database is a record of one list per table plus a fresh-primary-key
  counter; the ORM calls used by the views (`filter`, `get_object_or_404`,
  `save`, `delete`, FK cascade) become list operations on that record;
* every view handler is a total function from request data and database to
  the updated database paired with an HTTP-level response; an unhandled
  Python exception is the `serverError` response with the database as
  mutated so far.
-/

namespace EducaCourses

/-- Identifier of an authenticated user (`django.contrib.auth.models.User` pk). -/
abbrev UserId := Nat

/-- `Course` row (`courses/models.py`): owner FK, subject FK, title,
unique slug, overview. -/
structure Course where
  id : Nat
  owner : UserId
  subject : Nat
  title : String
  slug : String
  overview : String
deriving DecidableEq, Repr

/-- `Module` row (`courses/models.py`): FK to its course (with
`on_delete=CASCADE`), title, optional description. -/
structure Module where
  id : Nat
  course : Nat
  title : String
  description : String
deriving DecidableEq, Repr

/-- `Content` row (`courses/models.py`): FK to a module (with
`on_delete=CASCADE`) plus the generic-relation pair: `content_type` stores the
name of the referenced model (the FK to `ContentType` resolved to its `model`
column) and `object_id` the referenced row's pk. -/
structure Content where
  id : Nat
  module : Nat
  content_type : String
  object_id : Nat
deriving DecidableEq, Repr

/-- The four concrete item models deriving from `ItemBase`
(`courses/models.py`): `Text`, `Video`, `Image`, `File`. -/
inductive ItemType
  | text
  | video
  | image
  | file
deriving DecidableEq, Repr

/-- The lower-case Django model name of each item model. -/
def ItemType.name : ItemType → String
  | .text => "text"
  | .video => "video"
  | .image => "image"
  | .file => "file"

/-- A row of one of the `Text` / `Video` / `Image` / `File` tables: the shared
`ItemBase` columns (owner FK, title) plus the one type-specific payload column
(`content`, `url`, or `file` path respectively). -/
structure Item where
  id : Nat
  owner : UserId
  title : String
  payload : String
deriving DecidableEq, Repr

/-- Relational state: one list per table, plus a fresh primary-key source
shared by all tables (fresh ids are strictly increasing). -/
structure DB where
  courses : List Course
  modules : List Module
  contents : List Content
  texts : List Item
  videos : List Item
  images : List Item
  files : List Item
  nextId : Nat
deriving DecidableEq, Repr

/-- The table of the given item model. -/
def DB.itemsOf (db : DB) : ItemType → List Item
  | .text => db.texts
  | .video => db.videos
  | .image => db.images
  | .file => db.files

/-- Replace the table of the given item model. -/
def DB.withItems (db : DB) : ItemType → List Item → DB
  | .text, l => { db with texts := l }
  | .video, l => { db with videos := l }
  | .image, l => { db with images := l }
  | .file, l => { db with files := l }

/-- HTTP-level outcome of a request handler. `notFound` is Django's
`Http404`, `forbidden` a 403, `badRequest` a 400, `serverError` an unhandled
exception (500). `redirected` carries the module id of a
`module_content_list` redirect (`none` for the course-list redirect), and
`rendered b` is a 200 re-render of the form template, `b` recording whether
the form carried validation errors. -/
inductive Response
  | notFound
  | forbidden
  | badRequest
  | serverError
  | redirected (target : Option Nat)
  | rendered (formErrors : Bool)
deriving DecidableEq, Repr

/-! ## Content type registry (`ContentCreateUpdateView.get_model`) -/

/-- `apps.get_model(app_label='courses', model_name=...)` restricted to the
four item models: the actual class for a lower-case model name. In the view it
is only ever reached for one of the four names below. -/
def apps_get_model : String → Option ItemType
  | "text" => some .text
  | "video" => some .video
  | "image" => some .image
  | "file" => some .file
  | _ => none

/-- `ContentCreateUpdateView.get_model` (`courses/views.py`): if the given
name is one of the four content model names, return the model class obtained
from the app registry, otherwise return `none`. It is total: it never raises
for an unrecognized name. -/
def get_model (model_name : String) : Option ItemType :=
  if model_name ∈ ["text", "video", "image", "file"] then
    apps_get_model model_name
  else
    none

/-! ## Ownership-filtered fetches -/

/-- `OwnerMixin.get_queryset` (`courses/views.py`): the base course queryset
narrowed to `owner=request.user`. -/
def ownerCourses (user : UserId) (db : DB) : List Course :=
  db.courses.filter (fun c => c.owner == user)

/-- `ManageCourseListView`: list the requesting user's courses. -/
def manageCourseList (user : UserId) (db : DB) : List Course :=
  ownerCourses user db

/-- `get_object` of the mixin-based course edit views: the pk lookup runs
inside the owner-filtered queryset of `OwnerMixin.get_queryset`. -/
def ownerGetCourse (user : UserId) (cid : Nat) (db : DB) : Option Course :=
  (ownerCourses user db).find? (fun c => c.id == cid)

/-- `get_object_or_404(Course, id=pk, owner=request.user)`
(`CourseModuleUpdateView.dispatch`). -/
def getCourseOwned (user : UserId) (cid : Nat) (db : DB) : Option Course :=
  db.courses.find? (fun c => c.id == cid && c.owner == user)

/-- The join condition `course__owner=user` for a module's course FK: some
course row has the module's course id and the given owner. -/
def courseOwnerIs (db : DB) (cid : Nat) (user : UserId) : Bool :=
  db.courses.any (fun c => c.id == cid && c.owner == user)

/-- `get_object_or_404(Module, id=module_id, course__owner=request.user)`
(`ContentCreateUpdateView.dispatch`, `ModuleContentListView.get`). -/
def getModuleOwned (user : UserId) (mid : Nat) (db : DB) : Option Module :=
  db.modules.find? (fun m => m.id == mid && courseOwnerIs db m.course user)

/-- The join condition `module__course__owner=user` for a content row. -/
def moduleOwnedBy (db : DB) (mid : Nat) (user : UserId) : Bool :=
  db.modules.any (fun m => m.id == mid && courseOwnerIs db m.course user)

/-- `get_object_or_404(Content, id=id, module__course__owner=request.user)`
(`ContentDeleteView.post`). -/
def getContentOwned (user : UserId) (cid : Nat) (db : DB) : Option Content :=
  db.contents.find? (fun c => c.id == cid && moduleOwnedBy db c.module user)

/-- `get_object_or_404(self.model, id=id, owner=request.user)`
(`ContentCreateUpdateView.dispatch`, update path). -/
def getItemOwned (user : UserId) (t : ItemType) (iid : Nat) (db : DB) :
    Option Item :=
  (db.itemsOf t).find? (fun i => i.id == iid && i.owner == user)

/-- Generic-relation dereference `content.item`
(`courses/models.py`, `GenericForeignKey('content_type', 'object_id')`): look
up the model class named by the discriminator and fetch the row with pk
`object_id`; `none` when the class is not an item model or the row is gone. -/
def resolveItem (db : DB) (ty : String) (oid : Nat) :
    Option (ItemType × Item) :=
  match apps_get_model ty with
  | none => none
  | some t => ((db.itemsOf t).find? (fun i => i.id == oid)).map (fun i => (t, i))

/-! ## Course CRUD views -/

/-- The raw POST body of a course form: the four model-form fields plus a
possibly client-supplied `owner` value. The form is built with
`fields = ['subject', 'title', 'slug', 'overview']` (`OwnerCourseMixin`), so
the `owner` component is never read by any handler. -/
structure CoursePost where
  subject : Nat
  title : String
  slug : String
  overview : String
  owner : Option UserId
deriving DecidableEq, Repr

/-- The components of a `CoursePost` that the generated model form actually
binds. -/
def CoursePost.formFields (p : CoursePost) : Nat × String × String × String :=
  (p.subject, p.title, p.slug, p.overview)

/-- Form validity for course creation, as induced by
`slug = SlugField(unique=True)` in `courses/models.py`: the submitted slug
must not already be in use. -/
def slugTaken (db : DB) (slug : String) : Bool :=
  db.courses.any (fun c => c.slug == slug)

/-- Form validity for course update: the unique-slug check excludes the row
being edited. -/
def slugTakenByOther (db : DB) (slug : String) (cid : Nat) : Bool :=
  db.courses.any (fun c => c.slug == slug && c.id != cid)

/-- `CourseCreateView` (POST): the model form binds subject/title/slug/
overview; on validity `OwnerEditMixin.form_valid` sets
`form.instance.owner = request.user` before saving, then redirects to the
course list. -/
def courseCreateView (user : UserId) (p : CoursePost) (db : DB) :
    DB × Response :=
  if slugTaken db p.slug then
    (db, .rendered true)
  else
    let c : Course :=
      { id := db.nextId, owner := user, subject := p.subject,
        title := p.title, slug := p.slug, overview := p.overview }
    ({ db with courses := db.courses ++ [c], nextId := db.nextId + 1 },
     .redirected none)

/-- `CourseUpdateView` (POST): the object is fetched through the
owner-filtered queryset (`OwnerMixin`), a missing fetch is `Http404`; on a
valid form `OwnerEditMixin.form_valid` re-stamps `owner = request.user` and
saves the bound fields. -/
def courseUpdateView (user : UserId) (cid : Nat) (p : CoursePost) (db : DB) :
    DB × Response :=
  match ownerGetCourse user cid db with
  | none => (db, .notFound)
  | some _ =>
    if slugTakenByOther db p.slug cid then
      (db, .rendered true)
    else
      ({ db with courses := db.courses.map (fun x =>
            if x.id == cid && x.owner == user then
              { x with owner := user, subject := p.subject, title := p.title,
                       slug := p.slug, overview := p.overview }
            else x) },
       .redirected none)

/-- FK cascade of deleting one course row (`on_delete=CASCADE` on
`Module.course` and `Content.module` in `courses/models.py`): the course's
modules and their content rows are removed; item tables are untouched (the
generic relation declares no cascade). -/
def courseDeleteCascade (db : DB) (cid : Nat) : DB :=
  { db with
      courses := db.courses.filter (fun c => !(c.id == cid)),
      modules := db.modules.filter (fun m => !(m.course == cid)),
      contents := db.contents.filter (fun ct =>
        !(db.modules.any (fun m => m.id == ct.module && m.course == cid))) }

/-- `CourseDeleteView` (POST): fetch through the owner-filtered queryset,
`Http404` when absent, otherwise delete the row (with FK cascade) and
redirect to the course list. -/
def courseDeleteView (user : UserId) (cid : Nat) (db : DB) : DB × Response :=
  match ownerGetCourse user cid db with
  | none => (db, .notFound)
  | some _ => (courseDeleteCascade db cid, .redirected none)

/-! ## Module bulk edit (`CourseModuleUpdateView`) -/

/-- One row of the submitted module formset: create a module, update an
existing one, or mark one for deletion. -/
inductive ModuleRowEdit
  | create (title description : String)
  | update (mid : Nat) (title description : String)
  | delete (mid : Nat)
deriving DecidableEq, Repr

/-- Validity of one formset row, as induced by `courses/models.py`:
`Module.title` is a required `CharField`, `Module.description` has
`blank=True`; a deletion mark needs no field input. -/
def rowValid : ModuleRowEdit → Bool
  | .create t _ => t != ""
  | .update _ t _ => t != ""
  | .delete _ => true

/-- FK cascade of deleting one module row (`on_delete=CASCADE` on
`Content.module`): its content rows are removed with it; the item tables are
untouched because the generic relation `Content.item` declares no cascade. -/
def moduleDeleteCascade (db : DB) (mid : Nat) : DB :=
  { db with
      modules := db.modules.filter (fun m => !(m.id == mid)),
      contents := db.contents.filter (fun c => !(c.module == mid)) }

/-- Apply one validated formset row to the database. Creates attach to the
formset's course instance; updates and deletes only touch modules of that
course (the inline formset's queryset is scoped to the instance). -/
def applyRow (courseId : Nat) (db : DB) : ModuleRowEdit → DB
  | .create t d =>
    { db with
        modules := db.modules ++ [⟨db.nextId, courseId, t, d⟩],
        nextId := db.nextId + 1 }
  | .update mid t d =>
    { db with modules := db.modules.map (fun m =>
        if m.id == mid && m.course == courseId then
          { m with title := t, description := d }
        else m) }
  | .delete mid =>
    if db.modules.any (fun m => m.id == mid && m.course == courseId) then
      moduleDeleteCascade db mid
    else db

/-- Modelled from the spec: `ModuleFormSet.save` (defined in
`courses/forms.py`, a file not among the sources). Per the spec's bulk-edit
contract, on a fully validated batch the creates, updates and deletions are
applied as one unit scoped to the course. -/
def formsetSave (courseId : Nat) (rows : List ModuleRowEdit) (db : DB) : DB :=
  rows.foldl (applyRow courseId) db

/-- Outcome of the module bulk-edit view: `rendered` carries the per-row
error flags of the rejected batch (`true` marks a row that failed
validation). -/
inductive BatchResponse
  | notFound
  | redirected
  | rendered (rowErrors : List Bool)
deriving DecidableEq, Repr

/-- `CourseModuleUpdateView` (POST): `dispatch` fetches the course with
`get_object_or_404(Course, id=pk, owner=request.user)`; `post` builds the
formset from the submitted data, validates every row, saves all of them and
redirects when all are valid, and re-renders with the per-row errors (and no
database change) otherwise. Validation and save of the formset itself are
modelled from the spec (`courses/forms.py` is not among the sources). -/
def courseModuleUpdateView (user : UserId) (pk : Nat)
    (rows : List ModuleRowEdit) (db : DB) : DB × BatchResponse :=
  match getCourseOwned user pk db with
  | none => (db, .notFound)
  | some course =>
    if rows.all rowValid then
      (formsetSave course.id rows db, .redirected)
    else
      (db, .rendered (rows.map (fun r => !rowValid r)))

/-! ## Content create/update/delete and listing views -/

/-- The raw POST body of a content item form: the two bound fields (title and
the type-specific payload field) plus a possibly client-supplied `owner`
value. `ContentCreateUpdateView.get_form` builds the form with
`modelform_factory(model, exclude=['owner', 'order', 'created', 'updated'])`,
so the `owner` component is never read by any handler. -/
structure ItemPost where
  title : String
  payload : String
  owner : Option UserId
deriving DecidableEq, Repr

/-- The components of an `ItemPost` that the generated model form binds. -/
def ItemPost.formFields (p : ItemPost) : String × String :=
  (p.title, p.payload)

/-- Validity of the generated item form: both bound fields are required
(`CharField` / `TextField` / `URLField` / `FileField` without `blank=True` in
`courses/models.py`). -/
def itemFormValid (p : ItemPost) : Bool :=
  p.title != "" && p.payload != ""

/-- `ContentCreateUpdateView` (POST), `dispatch` included
(`courses/views.py`):
1. `dispatch` fetches the module with
   `get_object_or_404(Module, id=module_id, course__owner=request.user)`
   (`Http404` when absent) and resolves `self.model = get_model(model_name)`;
2. on the update path (`id` given) it fetches the item with
   `get_object_or_404(self.model, id=id, owner=request.user)`; when
   `self.model` is `None` that call raises (unhandled, a 500);
3. `post` builds the form via `get_form(self.model, ...)`; when `self.model`
   is `None`, `modelform_factory(None, ...)` raises (unhandled, a 500);
4. on a valid form: `obj = form.save(commit=False)`,
   `obj.owner = request.user`, `obj.save()`; when `id` is absent a new
   `Content` row is created for the module and the view redirects to the
   module's content list; on the update path the code falls through to a
   re-render; an invalid form re-renders with errors. -/
def contentCreateUpdateView (user : UserId) (module_id : Nat)
    (model_name : String) (id : Option Nat) (p : ItemPost) (db : DB) :
    DB × Response :=
  match getModuleOwned user module_id db with
  | none => (db, .notFound)
  | some _ =>
    match get_model model_name with
    | none => (db, .serverError)
    | some t =>
      match id with
      | none =>
        if itemFormValid p then
          let it : Item := ⟨db.nextId, user, p.title, p.payload⟩
          let ct : Content := ⟨db.nextId + 1, module_id, t.name, it.id⟩
          let db1 := db.withItems t (db.itemsOf t ++ [it])
          ({ db1 with contents := db1.contents ++ [ct],
                      nextId := db.nextId + 2 },
           .redirected (some module_id))
        else (db, .rendered true)
      | some iid =>
        match getItemOwned user t iid db with
        | none => (db, .notFound)
        | some _ =>
          if itemFormValid p then
            (db.withItems t ((db.itemsOf t).map (fun i =>
                if i.id == iid && i.owner == user then
                  { i with owner := user, title := p.title,
                           payload := p.payload }
                else i)),
             .rendered false)
          else (db, .rendered true)

/-- Failure signals of the content-delete core. -/
inductive Err
  | notFound
  | serverError
deriving DecidableEq, Repr

/-- One observable deletion step of `ContentDeleteView.post`, recorded in
execution order. -/
inductive DelEvent
  | deletedItem (t : ItemType) (oid : Nat)
  | deletedContent (cid : Nat)
deriving DecidableEq, Repr

/-- `ContentDeleteView.post` (`courses/views.py`): fetch the content row with
`get_object_or_404(Content, id=id, module__course__owner=request.user)`;
dereference `content.item` (when the generic reference is dangling the
dereference yields `None` and `None.delete()` raises, a 500); delete the item
row, then delete the content row; return the deletion trace and the module id
of the redirect target. -/
def contentDeleteCore (user : UserId) (cid : Nat) (db : DB) :
    Except Err (DB × List DelEvent × Nat) :=
  match getContentOwned user cid db with
  | none => .error .notFound
  | some ct =>
    match resolveItem db ct.content_type ct.object_id with
    | none => .error .serverError
    | some (t, _) =>
      let db1 := db.withItems t
        ((db.itemsOf t).filter (fun i => !(i.id == ct.object_id)))
      let db2 := { db1 with
        contents := db1.contents.filter (fun c => !(c.id == cid)) }
      .ok (db2, [DelEvent.deletedItem t ct.object_id,
                 DelEvent.deletedContent cid], ct.module)

/-- `ContentDeleteView.post` as an HTTP handler: `Http404` or the unhandled
dangling-reference failure leave the database unchanged; success redirects to
the content list of the row's module. -/
def contentDeleteView (user : UserId) (cid : Nat) (db : DB) : DB × Response :=
  match contentDeleteCore user cid db with
  | .error .notFound => (db, .notFound)
  | .error .serverError => (db, .serverError)
  | .ok (db2, _, m) => (db2, .redirected (some m))

/-- `ModuleContentListView.get`: fetch the module with
`get_object_or_404(Module, id=module_id, course__owner=request.user)` and
render its content list. -/
def moduleContentListView (user : UserId) (mid : Nat) (db : DB) :
    DB × Response :=
  match getModuleOwned user mid db with
  | none => (db, .notFound)
  | some _ => (db, .rendered false)

/-- The content rows of one module, in stored order. -/
def moduleContents (db : DB) (mid : Nat) : List Content :=
  db.contents.filter (fun c => c.module == mid)

/-! ## Data-layer persistence of a `Content` row -/

/-- The `model` column of the rows of Django's `ContentType` table: one row
per installed model. The FK `Content.content_type` can reference any of
them. -/
def registeredModels : List String :=
  ["subject", "course", "module", "content",
   "text", "file", "image", "video", "user", "contenttype"]

/-- The `limit_choices_to={'model__in': ('text', 'video', 'image', 'file')}`
declaration on `Content.content_type` (`courses/models.py`): the set of
discriminators a `ModelForm` choice field for that FK will accept. Django
applies `limit_choices_to` only when the field is rendered and validated by a
form (or the admin); it adds no database constraint. -/
def contentTypeLimitChoices : List String :=
  ["text", "video", "image", "file"]

/-- Form-level validation of a submitted discriminator against
`limit_choices_to`. -/
def contentFormChoiceOk (ty : String) : Bool :=
  contentTypeLimitChoices.contains ty

/-- Direct data-layer insert of a `Content` row (`Content.objects.create` /
`Model.save` through the ORM): the database enforces only the FK's
referential integrity — the discriminator must name a row of the
`ContentType` table — and `limit_choices_to` is not consulted on save. A
violated FK raises an integrity error (modelled as `Err.serverError`). -/
def contentRowSave (db : DB) (mid : Nat) (ty : String) (oid : Nat) :
    Except Err DB :=
  if registeredModels.contains ty then
    .ok { db with
            contents := db.contents ++ [⟨db.nextId, mid, ty, oid⟩],
            nextId := db.nextId + 1 }
  else
    .error .serverError

/-! ## Concrete instances used by witnesses and counterexamples -/

/-- An empty database. -/
def dbEmpty : DB := ⟨[], [], [], [], [], [], [], 0⟩

/-- A concrete database: user 1 owns course 10 with module 20, which holds
two text content rows (30 → text 40, 31 → text 41). -/
def db3 : DB :=
  { courses := [⟨10, 1, 5, "C1", "c1", "ov"⟩],
    modules := [⟨20, 10, "M1", ""⟩],
    contents := [⟨30, 20, "text", 40⟩, ⟨31, 20, "text", 41⟩],
    texts := [⟨40, 1, "Intro", "hello"⟩, ⟨41, 1, "Two", "world"⟩],
    videos := [], images := [], files := [], nextId := 100 }

/-- A concrete content-item POST body. -/
def q0 : ItemPost := ⟨"T1", "payload", none⟩

/-- A copy of `db3` whose content row 30 dangles: text item 40 is absent. -/
def db10 : DB :=
  { courses := [⟨10, 1, 5, "C1", "c1", "ov"⟩],
    modules := [⟨20, 10, "M1", ""⟩],
    contents := [⟨30, 20, "text", 40⟩],
    texts := [], videos := [], images := [], files := [], nextId := 100 }

/-- A two-user database: user 2 owns course 10 (module 20, content 30 →
text 40); user 1 owns course 11 with module 21. -/
def dbW : DB :=
  { courses := [⟨10, 2, 5, "B course", "bc", "ov"⟩,
                ⟨11, 1, 5, "A course", "ac", "ov"⟩],
    modules := [⟨20, 10, "BM", ""⟩, ⟨21, 11, "AM", ""⟩],
    contents := [⟨30, 20, "text", 40⟩],
    texts := [⟨40, 2, "B text", "hello"⟩],
    videos := [], images := [], files := [], nextId := 100 }

/-- A concrete course POST body. -/
def pW : CoursePost := ⟨5, "T", "slug-w", "o", none⟩

/-! ## Helper lemmas -/

/-- Every row surviving a filter satisfies the filter's predicate. -/
theorem all_filter_self {α : Type} (l : List α) (p : α → Bool) :
    (l.filter p).all p = true := by
  rw [List.all_eq_true]
  intro a ha
  exact (List.mem_filter.mp ha).2

/-- Replacing an item table leaves the content table unchanged. -/
theorem contents_withItems (db : DB) (t : ItemType) (l : List Item) :
    (db.withItems t l).contents = db.contents := by
  cases t <;> rfl

/-- Replacing the content table leaves every item table unchanged. -/
theorem itemsOf_set_contents (db : DB) (l : List Content) (t : ItemType) :
    ({ db with contents := l }).itemsOf t = db.itemsOf t := by
  cases t <;> rfl

/-- Replacing the content table and the id counter leaves every item table
unchanged. -/
theorem itemsOf_set_contents_nextId (db : DB) (l : List Content) (n : Nat)
    (t : ItemType) :
    ({ db with contents := l, nextId := n }).itemsOf t = db.itemsOf t := by
  cases t <;> rfl

/-- Reading back the item table just replaced. -/
theorem itemsOf_withItems_self (db : DB) (t : ItemType) (l : List Item) :
    (db.withItems t l).itemsOf t = l := by
  cases t <;> rfl

/-- Reading an item table other than the one replaced. -/
theorem itemsOf_withItems_ne (db : DB) (t u : ItemType) (l : List Item)
    (h : u ≠ t) : (db.withItems t l).itemsOf u = db.itemsOf u := by
  cases t <;> cases u <;> simp_all [DB.withItems, DB.itemsOf]

/-- `courseCreateView` reads only the bound form fields of the POST body:
two bodies with the same bound fields (differing, say, in a client-supplied
owner value) produce identical outcomes. -/
theorem courseCreateView_only_form_fields (u : UserId) (p p2 : CoursePost)
    (db : DB) (h : p.formFields = p2.formFields) :
    courseCreateView u p db = courseCreateView u p2 db := by
  cases p
  cases p2
  simp only [CoursePost.formFields, Prod.mk.injEq] at h
  obtain ⟨h1, h2, h3, h4⟩ := h
  subst h1
  subst h2
  subst h3
  subst h4
  rfl

/-- Every course row present after `courseCreateView` was either already
there or carries the requester as owner. -/
theorem courseCreateView_owner_stamped (u : UserId) (p : CoursePost)
    (db : DB) :
    ∀ c ∈ (courseCreateView u p db).1.courses,
      c ∈ db.courses ∨ c.owner = u := by
  intro c hc
  cases hs : slugTaken db p.slug with
  | true =>
    simp [courseCreateView, hs] at hc
    exact Or.inl hc
  | false =>
    simp [courseCreateView, hs] at hc
    rcases hc with hc | hc
    · exact Or.inl hc
    · subst hc
      exact Or.inr rfl

/-- `contentCreateUpdateView` reads only the bound form fields of the POST
body. -/
theorem contentCreateUpdateView_only_form_fields (u mid : Nat) (nm : String)
    (oid : Option Nat) (q q2 : ItemPost) (db : DB)
    (h : q.formFields = q2.formFields) :
    contentCreateUpdateView u mid nm oid q db =
      contentCreateUpdateView u mid nm oid q2 db := by
  cases q
  cases q2
  simp only [ItemPost.formFields, Prod.mk.injEq] at h
  obtain ⟨h1, h2⟩ := h
  subst h1
  subst h2
  rfl

/-- Every item row present after `contentCreateUpdateView` was either
already in its table or carries the requester as owner. -/
theorem contentCreateUpdateView_owner_stamped (u mid : Nat) (nm : String)
    (oid : Option Nat) (q : ItemPost) (db : DB) :
    ∀ t : ItemType,
      ∀ it ∈ ((contentCreateUpdateView u mid nm oid q db).1).itemsOf t,
        it ∈ db.itemsOf t ∨ it.owner = u := by
  intro t it hit
  rcases hmod : getModuleOwned u mid db with _ | m
  · simp only [contentCreateUpdateView, hmod] at hit
    exact Or.inl hit
  · rcases hgm : get_model nm with _ | t2
    · simp only [contentCreateUpdateView, hmod, hgm] at hit
      exact Or.inl hit
    · rcases oid with _ | iid
      · cases hval : itemFormValid q with
        | false =>
          simp only [contentCreateUpdateView, hmod, hgm, hval,
            Bool.false_eq_true, if_false] at hit
          exact Or.inl hit
        | true =>
          simp only [contentCreateUpdateView, hmod, hgm, hval,
            eq_self_iff_true, if_true] at hit
          rw [itemsOf_set_contents_nextId] at hit
          by_cases hteq : t = t2
          · subst hteq
            rw [itemsOf_withItems_self] at hit
            rcases List.mem_append.mp hit with hold | hnew
            · exact Or.inl hold
            · rcases List.mem_singleton.mp hnew with rfl
              exact Or.inr rfl
          · rw [itemsOf_withItems_ne _ _ _ _ hteq] at hit
            exact Or.inl hit
      · rcases hgi : getItemOwned u t2 iid db with _ | old
        · simp only [contentCreateUpdateView, hmod, hgm, hgi] at hit
          exact Or.inl hit
        · cases hval : itemFormValid q with
          | false =>
            simp only [contentCreateUpdateView, hmod, hgm, hgi, hval,
              Bool.false_eq_true, if_false] at hit
            exact Or.inl hit
          | true =>
            simp only [contentCreateUpdateView, hmod, hgm, hgi, hval,
              eq_self_iff_true, if_true] at hit
            by_cases hteq : t = t2
            · subst hteq
              rw [itemsOf_withItems_self] at hit
              rcases List.mem_map.mp hit with ⟨x, hx, hfx⟩
              by_cases hcond : (x.id == iid && x.owner == u) = true
              · rw [if_pos hcond] at hfx
                subst hfx
                exact Or.inr rfl
              · rw [if_neg hcond] at hfx
                subst hfx
                exact Or.inl hx
            · rw [itemsOf_withItems_ne _ _ _ _ hteq] at hit
              exact Or.inl hit

/-- When every course row with the given id belongs to `B` and `A ≠ B`, the
owner join for `A` finds nothing. -/
theorem courseOwnerIs_false (db : DB) (cid : Nat) (A B : UserId)
    (hAB : A ≠ B)
    (h : ∀ c ∈ db.courses, c.id = cid → c.owner = B) :
    courseOwnerIs db cid A = false := by
  apply Bool.eq_false_iff.mpr
  intro hany
  rw [courseOwnerIs, List.any_eq_true] at hany
  rcases hany with ⟨c, hc, hcp⟩
  simp only [Bool.and_eq_true, beq_iff_eq] at hcp
  exact hAB (hcp.2.symm.trans (h c hc hcp.1))

/-- When every module row with the given id sits in a course of `B` and
`A ≠ B`, the `course__owner` join for `A` finds nothing. -/
theorem moduleOwnedBy_false (db : DB) (mid : Nat) (A B : UserId)
    (hAB : A ≠ B)
    (h : ∀ m ∈ db.modules, m.id = mid →
          ∀ c ∈ db.courses, c.id = m.course → c.owner = B) :
    moduleOwnedBy db mid A = false := by
  apply Bool.eq_false_iff.mpr
  intro hany
  rw [moduleOwnedBy, List.any_eq_true] at hany
  rcases hany with ⟨m, hm, hmp⟩
  simp only [Bool.and_eq_true, beq_iff_eq] at hmp
  have := courseOwnerIs_false db m.course A B hAB (h m hm hmp.1)
  rw [this] at hmp
  exact absurd hmp.2 (by simp)

/-- The owner-filtered course fetch is empty for `A` when every course row
with the given id belongs to `B ≠ A`. -/
theorem ownerGetCourse_none (db : DB) (cid : Nat) (A B : UserId)
    (hAB : A ≠ B)
    (h : ∀ c ∈ db.courses, c.id = cid → c.owner = B) :
    ownerGetCourse A cid db = none := by
  rw [ownerGetCourse, List.find?_eq_none]
  intro c hc
  rw [ownerCourses, List.mem_filter] at hc
  rcases hc with ⟨hcm, hcA⟩
  simp only [beq_iff_eq] at hcA ⊢
  intro hcid
  exact hAB (hcA.symm.trans (h c hcm hcid))

/-- `get_object_or_404(Course, id, owner)` is empty for `A` when every
course row with the given id belongs to `B ≠ A`. -/
theorem getCourseOwned_none (db : DB) (cid : Nat) (A B : UserId)
    (hAB : A ≠ B)
    (h : ∀ c ∈ db.courses, c.id = cid → c.owner = B) :
    getCourseOwned A cid db = none := by
  rw [getCourseOwned, List.find?_eq_none]
  intro c hc
  simp only [Bool.and_eq_true, beq_iff_eq, not_and]
  intro hcid hA
  exact hAB (hA.symm.trans (h c hc hcid))

/-- The owner-joined module fetch is empty for `A` when every module row
with the given id sits in a course of `B ≠ A`. -/
theorem getModuleOwned_none (db : DB) (mid : Nat) (A B : UserId)
    (hAB : A ≠ B)
    (h : ∀ m ∈ db.modules, m.id = mid →
          ∀ c ∈ db.courses, c.id = m.course → c.owner = B) :
    getModuleOwned A mid db = none := by
  rw [getModuleOwned, List.find?_eq_none]
  intro m hm
  simp only [Bool.and_eq_true, beq_iff_eq, not_and]
  intro hmid
  have := courseOwnerIs_false db m.course A B hAB (h m hm hmid)
  simp [this]

/-- The owner-joined content fetch is empty for `A` when every content row
with the given id hangs under a course of `B ≠ A`. -/
theorem getContentOwned_none (db : DB) (cid : Nat) (A B : UserId)
    (hAB : A ≠ B)
    (h : ∀ ct ∈ db.contents, ct.id = cid →
          ∀ m ∈ db.modules, m.id = ct.module →
            ∀ c ∈ db.courses, c.id = m.course → c.owner = B) :
    getContentOwned A cid db = none := by
  rw [getContentOwned, List.find?_eq_none]
  intro ct hct
  simp only [Bool.and_eq_true, beq_iff_eq, not_and]
  intro hcid
  have := moduleOwnedBy_false db ct.module A B hAB (h ct hct hcid)
  simp [this]

/-- The owner-filtered item fetch is empty for `A` when every item row with
the given id belongs to `B ≠ A`. -/
theorem getItemOwned_none (db : DB) (t : ItemType) (iid : Nat) (A B : UserId)
    (hAB : A ≠ B)
    (h : ∀ i ∈ db.itemsOf t, i.id = iid → i.owner = B) :
    getItemOwned A t iid db = none := by
  rw [getItemOwned, List.find?_eq_none]
  intro i hi
  simp only [Bool.and_eq_true, beq_iff_eq, not_and]
  intro hiid hA
  exact hAB (hA.symm.trans (h i hi hiid))

/-- The registry resolves each item model's own name to the model. -/
theorem get_model_name (t : ItemType) : get_model t.name = some t := by
  cases t <;> rfl

/-! ## Theorems settling the claims -/

/-- Claim C5: for every input string the content type registry returns the
corresponding model class when the string is one of the four recognized type
names and returns `none` for every other string; being a total function it
never raises for an unrecognized name. -/
theorem get_model_total_registry (s : String)
    (hs : s ∉ ["text", "video", "image", "file"]) :
    get_model "text" = some ItemType.text
    ∧ get_model "video" = some ItemType.video
    ∧ get_model "image" = some ItemType.image
    ∧ get_model "file" = some ItemType.file
    ∧ get_model s = none := by
  refine ⟨rfl, rfl, rfl, rfl, ?_⟩
  unfold get_model
  rw [if_neg hs]

/-- Witness for C5 at the concrete unrecognized name `quiz`. -/
theorem get_model_total_registry_witness :
    "quiz" ∉ ["text", "video", "image", "file"]
    ∧ (get_model "text" = some ItemType.text
       ∧ get_model "video" = some ItemType.video
       ∧ get_model "image" = some ItemType.image
       ∧ get_model "file" = some ItemType.file
       ∧ get_model "quiz" = none) :=
  ⟨by decide, get_model_total_registry "quiz" (by decide)⟩

/-- Counterexample to claim C9 as stated: a direct data-layer save of a
`Content` row whose discriminator is `subject` — a registered model name that
is not one of {text, video, image, file} — is accepted and the row is
persisted; the data layer does not reject it (only form-level validation
does). -/
theorem discriminator_data_layer_accepts_cex :
    contentRowSave dbEmpty 1 "subject" 5 =
      .ok { dbEmpty with contents := [⟨0, 1, "subject", 5⟩], nextId := 1 }
    ∧ contentFormChoiceOk "subject" = false :=
  ⟨rfl, rfl⟩

/-- Claim C9 amended: the discriminator restriction on
`Content.content_type` to {text, video, image, file} is enforced only at
form level (`limit_choices_to` accepts exactly those four names), while a
direct data-layer save of a row whose discriminator names any other
registered model is accepted and persisted unchanged. -/
theorem discriminator_form_level_only (db : DB) (mid oid : Nat) (ty : String)
    (hreg : registeredModels.contains ty = true)
    (hnot : contentFormChoiceOk ty = false) :
    contentFormChoiceOk ty = false
    ∧ (∀ s ∈ contentTypeLimitChoices, contentFormChoiceOk s = true)
    ∧ contentRowSave db mid ty oid =
        .ok { db with
                contents := db.contents ++ [⟨db.nextId, mid, ty, oid⟩],
                nextId := db.nextId + 1 } := by
  refine ⟨hnot, ?_, ?_⟩
  · intro s hs
    simpa [contentFormChoiceOk] using hs
  · unfold contentRowSave
    rw [hreg]
    simp

/-- Witness for the amended C9 at the concrete discriminator `subject`. -/
theorem discriminator_form_level_only_witness :
    contentFormChoiceOk "subject" = false
    ∧ (∀ s ∈ contentTypeLimitChoices, contentFormChoiceOk s = true)
    ∧ contentRowSave dbEmpty 7 "subject" 5 =
        .ok { dbEmpty with
                contents := [⟨0, 7, "subject", 5⟩],
                nextId := 1 } :=
  discriminator_form_level_only dbEmpty 7 5 "subject" (by decide) (by decide)

/-- Counterexample to claim C3 as stated: the owner deletes module 20, which
holds two content rows referencing text items 40 and 41; the module and both
`Content` rows are gone afterwards, but both referenced item rows still
exist — the deletion does not cascade through the generic relation. -/
theorem module_delete_leaves_items_cex :
    courseModuleUpdateView 1 10 [ModuleRowEdit.delete 20] db3 =
      ({ db3 with modules := [], contents := [] }, BatchResponse.redirected)
    ∧ ({ db3 with modules := [], contents := [] }).texts =
        [⟨40, 1, "Intro", "hello"⟩, ⟨41, 1, "Two", "world"⟩] :=
  ⟨rfl, rfl⟩

/-- Claim C3 amended: for an owned course, submitting a module-deletion row
deletes the module and, by the FK cascade, all of its `Content` rows, but the
referenced content item rows (`Text`, `Video`, `Image`, `File`) are not
deleted: every item table is unchanged. -/
theorem module_delete_cascade_amended (u pk mid : Nat) (db : DB)
    (course : Course)
    (hc : getCourseOwned u pk db = some course)
    (hm : db.modules.any (fun m => m.id == mid && m.course == course.id)
            = true) :
    courseModuleUpdateView u pk [ModuleRowEdit.delete mid] db =
      (moduleDeleteCascade db mid, BatchResponse.redirected)
    ∧ (moduleDeleteCascade db mid).modules.all
        (fun m => !(m.id == mid)) = true
    ∧ (moduleDeleteCascade db mid).contents.all
        (fun c => !(c.module == mid)) = true
    ∧ (moduleDeleteCascade db mid).texts = db.texts
    ∧ (moduleDeleteCascade db mid).videos = db.videos
    ∧ (moduleDeleteCascade db mid).images = db.images
    ∧ (moduleDeleteCascade db mid).files = db.files := by
  refine ⟨?_, ?_, ?_, rfl, rfl, rfl, rfl⟩
  · unfold courseModuleUpdateView
    rw [hc]
    simp [formsetSave, applyRow, hm, rowValid]
  · unfold moduleDeleteCascade
    simp
  · unfold moduleDeleteCascade
    simp

/-- Witness for the amended C3 on the concrete database `db3`. -/
theorem module_delete_cascade_amended_witness :
    courseModuleUpdateView 1 10 [ModuleRowEdit.delete 20] db3 =
      (moduleDeleteCascade db3 20, BatchResponse.redirected)
    ∧ (moduleDeleteCascade db3 20).modules.all
        (fun m => !(m.id == 20)) = true
    ∧ (moduleDeleteCascade db3 20).contents.all
        (fun c => !(c.module == 20)) = true
    ∧ (moduleDeleteCascade db3 20).texts = db3.texts
    ∧ (moduleDeleteCascade db3 20).videos = db3.videos
    ∧ (moduleDeleteCascade db3 20).images = db3.images
    ∧ (moduleDeleteCascade db3 20).files = db3.files :=
  module_delete_cascade_amended 1 10 20 db3 ⟨10, 1, 5, "C1", "c1", "ov"⟩
    (by decide) (by decide)

/-- Counterexample to claim C4 as stated: a content-create request by the
module's owner with the unrecognized type name `quiz` does not fail with a
`badRequest` signal — `get_model` returns `None`, no caller checks it, and
form construction raises, an unhandled server error; the database is
unchanged (no rows created), but the signal is `serverError`, not
`badRequest`. -/
theorem bad_type_name_not_bad_request_cex :
    contentCreateUpdateView 1 20 "quiz" none q0 db3 =
      (db3, Response.serverError)
    ∧ Response.serverError ≠ Response.badRequest :=
  ⟨rfl, by simp⟩

/-- Claim C4 amended: for every content create or update request against an
owned module whose type name is not one of {text, video, image, file}, the
operation fails with an unhandled server error (never `badRequest`) and the
database is returned unchanged: no item row and no `Content` row is
created. -/
theorem bad_type_name_server_error (u mid : Nat) (nm : String)
    (oid : Option Nat) (q : ItemPost) (db : DB) (m : Module)
    (hm : getModuleOwned u mid db = some m)
    (hnm : nm ∉ ["text", "video", "image", "file"]) :
    contentCreateUpdateView u mid nm oid q db = (db, Response.serverError)
    ∧ Response.serverError ≠ Response.badRequest := by
  have hgm : get_model nm = none := by
    unfold get_model
    rw [if_neg hnm]
  constructor
  · unfold contentCreateUpdateView
    rw [hm, hgm]
  · simp

/-- Witness for the amended C4 at the concrete type name `quiz` on `db3`. -/
theorem bad_type_name_server_error_witness :
    contentCreateUpdateView 1 20 "quiz" none q0 db3 =
      (db3, Response.serverError)
    ∧ Response.serverError ≠ Response.badRequest :=
  bad_type_name_server_error 1 20 "quiz" none q0 db3 ⟨20, 10, "M1", ""⟩
    (by decide) (by decide)

/-- Claim C6: for an owned course, if any submitted formset row fails
validation then the view commits nothing (the database is returned unchanged)
and returns per-row error detail covering every row; only if every row
validates are the creates, updates and deletions applied, all of them by one
`formsetSave` scoped to the course. The formset's validation and save
semantics are modelled from the spec (`courses/forms.py` is not among the
sources); the branch structure is `CourseModuleUpdateView.post`. -/
theorem module_batch_all_or_nothing (u pk : Nat)
    (rows : List ModuleRowEdit) (db : DB) (course : Course)
    (hc : getCourseOwned u pk db = some course) :
    (rows.all rowValid = false →
       courseModuleUpdateView u pk rows db =
         (db, BatchResponse.rendered (rows.map (fun r => !rowValid r))))
    ∧ (rows.all rowValid = true →
       courseModuleUpdateView u pk rows db =
         (formsetSave course.id rows db, BatchResponse.redirected))
    ∧ (rows.map (fun r => !rowValid r)).length = rows.length := by
  refine ⟨?_, ?_, by simp⟩
  · intro hbad
    simp [courseModuleUpdateView, hc, hbad]
  · intro hgood
    simp [courseModuleUpdateView, hc, hgood]

/-- Witness for C6 on `db3` with a batch containing one invalid row (an
empty title). -/
theorem module_batch_all_or_nothing_witness :
    ([ModuleRowEdit.create "" "d", ModuleRowEdit.delete 20].all rowValid
        = false →
       courseModuleUpdateView 1 10
           [ModuleRowEdit.create "" "d", ModuleRowEdit.delete 20] db3 =
         (db3, BatchResponse.rendered
           ([ModuleRowEdit.create "" "d", ModuleRowEdit.delete 20].map
             (fun r => !rowValid r))))
    ∧ ([ModuleRowEdit.create "" "d", ModuleRowEdit.delete 20].all rowValid
        = true →
       courseModuleUpdateView 1 10
           [ModuleRowEdit.create "" "d", ModuleRowEdit.delete 20] db3 =
         (formsetSave 10
            [ModuleRowEdit.create "" "d", ModuleRowEdit.delete 20] db3,
          BatchResponse.redirected))
    ∧ ([ModuleRowEdit.create "" "d", ModuleRowEdit.delete 20].map
         (fun r => !rowValid r)).length =
        [ModuleRowEdit.create "" "d", ModuleRowEdit.delete 20].length :=
  module_batch_all_or_nothing 1 10
    [ModuleRowEdit.create "" "d", ModuleRowEdit.delete 20] db3
    ⟨10, 1, 5, "C1", "c1", "ov"⟩ (by decide)

/-- Claim C7: for an owned content row whose generic reference resolves, the
delete view deletes the referenced item first and the `Content` row second
(the recorded deletion trace is exactly item-then-content), and afterwards
neither the content row nor the referenced item row exists; the view then
redirects to the module's content list. -/
theorem content_delete_order_no_orphans (u cid : Nat) (db : DB)
    (ct : Content) (t : ItemType) (it : Item)
    (h1 : getContentOwned u cid db = some ct)
    (h2 : resolveItem db ct.content_type ct.object_id = some (t, it)) :
    ∃ db2,
      contentDeleteCore u cid db =
        .ok (db2, [DelEvent.deletedItem t ct.object_id,
                   DelEvent.deletedContent cid], ct.module)
      ∧ db2.contents.all (fun c => !(c.id == cid)) = true
      ∧ (db2.itemsOf t).all (fun i => !(i.id == ct.object_id)) = true
      ∧ contentDeleteView u cid db =
          (db2, Response.redirected (some ct.module)) := by
  have hcore : contentDeleteCore u cid db =
      .ok ({ db.withItems t ((db.itemsOf t).filter
                (fun i => !(i.id == ct.object_id))) with
             contents := db.contents.filter (fun c => !(c.id == cid)) },
           [DelEvent.deletedItem t ct.object_id,
            DelEvent.deletedContent cid], ct.module) := by
    simp only [contentDeleteCore, h1, h2, contents_withItems]
  refine ⟨_, hcore, ?_, ?_, ?_⟩
  · exact all_filter_self _ _
  · rw [itemsOf_set_contents, itemsOf_withItems_self]
    exact all_filter_self _ _
  · simp only [contentDeleteView, hcore]

/-- Witness for C7: user 1 deletes content row 30 of `db3`, which references
text item 40. -/
theorem content_delete_order_no_orphans_witness :
    ∃ db2,
      contentDeleteCore 1 30 db3 =
        .ok (db2, [DelEvent.deletedItem ItemType.text 40,
                   DelEvent.deletedContent 30], 20)
      ∧ db2.contents.all (fun c => !(c.id == 30)) = true
      ∧ (db2.itemsOf ItemType.text).all (fun i => !(i.id == 40)) = true
      ∧ contentDeleteView 1 30 db3 =
          (db2, Response.redirected (some 20)) :=
  content_delete_order_no_orphans 1 30 db3 ⟨30, 20, "text", 40⟩
    ItemType.text ⟨40, 1, "Intro", "hello"⟩ (by decide) (by decide)

/-- Claim C10: the content-delete operation dereferences the content row's
generic item reference before removing anything: given an owned content row
it succeeds exactly when the (discriminator, id) pair resolves to a live item
row, and on a dangling reference the resolution yields `none`, the item
delete step has no valid target, and the view fails (leaving the database
unchanged) instead of removing anything. -/
theorem content_delete_requires_live_item (u cid : Nat) (db : DB)
    (ct : Content)
    (h1 : getContentOwned u cid db = some ct) :
    ((∃ r, contentDeleteCore u cid db = .ok r) ↔
      (resolveItem db ct.content_type ct.object_id).isSome = true)
    ∧ (resolveItem db ct.content_type ct.object_id = none →
        contentDeleteCore u cid db = .error Err.serverError
        ∧ contentDeleteView u cid db = (db, Response.serverError)) := by
  constructor
  · constructor
    · rintro ⟨r, hr⟩
      simp only [contentDeleteCore, h1] at hr
      rcases hres : resolveItem db ct.content_type ct.object_id with _ | ⟨t, i⟩
      · rw [hres] at hr
        simp at hr
      · simp [hres]
    · intro hsome
      rcases hres : resolveItem db ct.content_type ct.object_id with _ | ⟨t, i⟩
      · rw [hres] at hsome
        simp at hsome
      · refine Exists.intro
          ({ db.withItems t ((db.itemsOf t).filter
                (fun j => !(j.id == ct.object_id))) with
             contents := (db.withItems t ((db.itemsOf t).filter
                (fun j => !(j.id == ct.object_id)))).contents.filter
                  (fun c => !(c.id == cid)) },
           [DelEvent.deletedItem t ct.object_id,
            DelEvent.deletedContent cid], ct.module) ?_
        simp only [contentDeleteCore, h1, hres]
  · intro hnone
    have hcore : contentDeleteCore u cid db = .error Err.serverError := by
      simp only [contentDeleteCore, h1, hnone]
    refine ⟨hcore, ?_⟩
    simp only [contentDeleteView, hcore]

/-- Witness for C10 on the dangling database `db10`. -/
theorem content_delete_requires_live_item_witness :
    ((∃ r, contentDeleteCore 1 30 db10 = .ok r) ↔
      (resolveItem db10 "text" 40).isSome = true)
    ∧ (resolveItem db10 "text" 40 = none →
        contentDeleteCore 1 30 db10 = .error Err.serverError
        ∧ contentDeleteView 1 30 db10 = (db10, Response.serverError)) :=
  content_delete_requires_live_item 1 30 db10 ⟨30, 20, "text", 40⟩
    (by decide)

/-- Claim C8: for every valid content-create request (owned module,
recognized type name, valid form), exactly one new item row is persisted,
its owner is the requester, and exactly one new `Content` row is created
linking the given module to that item; the new `Content` row is appended at
the end of the module's stored content sequence (the next available
position); every other item table is untouched and the view redirects to the
module's content list. -/
theorem content_create_one_item_one_row (u mid : Nat) (nm : String)
    (t : ItemType) (q : ItemPost) (db : DB) (m : Module)
    (hm : getModuleOwned u mid db = some m)
    (ht : get_model nm = some t)
    (hv : itemFormValid q = true) :
    ∃ newIt newCt,
      newIt.owner = u
      ∧ newCt.module = mid
      ∧ newCt.content_type = t.name
      ∧ newCt.object_id = newIt.id
      ∧ (contentCreateUpdateView u mid nm none q db).2 =
          Response.redirected (some mid)
      ∧ ((contentCreateUpdateView u mid nm none q db).1).itemsOf t =
          db.itemsOf t ++ [newIt]
      ∧ (∀ t2, t2 ≠ t →
          ((contentCreateUpdateView u mid nm none q db).1).itemsOf t2 =
            db.itemsOf t2)
      ∧ ((contentCreateUpdateView u mid nm none q db).1).contents =
          db.contents ++ [newCt]
      ∧ moduleContents ((contentCreateUpdateView u mid nm none q db).1) mid =
          moduleContents db mid ++ [newCt] := by
  have hview : contentCreateUpdateView u mid nm none q db =
      ({ db.withItems t (db.itemsOf t ++ [⟨db.nextId, u, q.title, q.payload⟩])
           with
         contents := db.contents ++ [⟨db.nextId + 1, mid, t.name, db.nextId⟩],
         nextId := db.nextId + 2 },
       Response.redirected (some mid)) := by
    simp [contentCreateUpdateView, hm, ht, hv, contents_withItems]
  refine ⟨⟨db.nextId, u, q.title, q.payload⟩,
          ⟨db.nextId + 1, mid, t.name, db.nextId⟩,
          rfl, rfl, rfl, rfl, ?_, ?_, ?_, ?_, ?_⟩
  · rw [hview]
  · rw [hview]
    rw [itemsOf_set_contents_nextId, itemsOf_withItems_self]
  · intro t2 h2
    rw [hview]
    rw [itemsOf_set_contents_nextId, itemsOf_withItems_ne _ _ _ _ h2]
  · rw [hview]
  · rw [hview]
    simp [moduleContents, List.filter_append]

/-- Witness for C8: user 1 creates a text item in module 20 of `db3`. -/
theorem content_create_one_item_one_row_witness :
    ∃ newIt newCt,
      newIt.owner = 1
      ∧ newCt.module = 20
      ∧ newCt.content_type = ItemType.text.name
      ∧ newCt.object_id = newIt.id
      ∧ (contentCreateUpdateView 1 20 "text" none q0 db3).2 =
          Response.redirected (some 20)
      ∧ ((contentCreateUpdateView 1 20 "text" none q0 db3).1).itemsOf
            ItemType.text =
          db3.itemsOf ItemType.text ++ [newIt]
      ∧ (∀ t2, t2 ≠ ItemType.text →
          ((contentCreateUpdateView 1 20 "text" none q0 db3).1).itemsOf t2 =
            db3.itemsOf t2)
      ∧ ((contentCreateUpdateView 1 20 "text" none q0 db3).1).contents =
          db3.contents ++ [newCt]
      ∧ moduleContents ((contentCreateUpdateView 1 20 "text" none q0 db3).1)
            20 =
          moduleContents db3 20 ++ [newCt] :=
  content_create_one_item_one_row 1 20 "text" ItemType.text q0 db3
    ⟨20, 10, "M1", ""⟩ (by decide) (by decide) (by decide)

/-- Claim C2: for every create operation (course create, content-item create
or update), the persisted owner equals the requesting identity regardless of
the submitted form data: the owner field is excluded from the generated form
and overwritten with the requester before saving, so two requests differing
only in client-supplied owner data produce identical outcomes, and every row
the operation adds or modifies carries the requester as owner. -/
theorem owner_stamped_server_side (u : UserId) (p p2 : CoursePost)
    (q q2 : ItemPost) (mid : Nat) (nm : String) (oid : Option Nat) (db : DB)
    (hp : p.formFields = p2.formFields)
    (hq : q.formFields = q2.formFields) :
    courseCreateView u p db = courseCreateView u p2 db
    ∧ (∀ c ∈ (courseCreateView u p db).1.courses,
        c ∈ db.courses ∨ c.owner = u)
    ∧ contentCreateUpdateView u mid nm oid q db =
        contentCreateUpdateView u mid nm oid q2 db
    ∧ (∀ t : ItemType,
        ∀ it ∈ ((contentCreateUpdateView u mid nm oid q db).1).itemsOf t,
          it ∈ db.itemsOf t ∨ it.owner = u) :=
  ⟨courseCreateView_only_form_fields u p p2 db hp,
   courseCreateView_owner_stamped u p db,
   contentCreateUpdateView_only_form_fields u mid nm oid q q2 db hq,
   contentCreateUpdateView_owner_stamped u mid nm oid q db⟩

/-- Witness for C2: two course POST bodies and two item POST bodies that
differ only in the client-supplied owner value, on `db3`. -/
theorem owner_stamped_server_side_witness :
    courseCreateView 1 ⟨5, "T", "t-slug", "ov2", none⟩ db3 =
      courseCreateView 1 ⟨5, "T", "t-slug", "ov2", some 2⟩ db3
    ∧ (∀ c ∈ (courseCreateView 1 ⟨5, "T", "t-slug", "ov2", none⟩ db3).1.courses,
        c ∈ db3.courses ∨ c.owner = 1)
    ∧ contentCreateUpdateView 1 20 "text" none ⟨"T1", "payload", none⟩ db3 =
        contentCreateUpdateView 1 20 "text" none ⟨"T1", "payload", some 2⟩ db3
    ∧ (∀ t : ItemType,
        ∀ it ∈ ((contentCreateUpdateView 1 20 "text" none
                  ⟨"T1", "payload", none⟩ db3).1).itemsOf t,
          it ∈ db3.itemsOf t ∨ it.owner = 1) :=
  owner_stamped_server_side 1 ⟨5, "T", "t-slug", "ov2", none⟩
    ⟨5, "T", "t-slug", "ov2", some 2⟩ ⟨"T1", "payload", none⟩
    ⟨"T1", "payload", some 2⟩ 20 "text" none db3 (by decide) (by decide)

/-- Claim C1: for users `A ≠ B`, every list, read, update, or delete
operation issued by `A` against a course, module, content row, or content
item owned by `B` fails with `notFound` (never `forbidden`), because each
handler re-fetches its target filtered by owner (directly or through the
module → course chain): `B`'s courses never appear in `A`'s course list, and
the course edit/delete, module bulk-edit, module content list, content
create/update, and content delete handlers all answer `notFound` with the
database unchanged. -/
theorem ownership_scoping_not_found (A B : UserId)
    (cid mid ctid midA iid : Nat) (ty : ItemType) (mA : Module)
    (p : CoursePost) (q : ItemPost) (rows : List ModuleRowEdit)
    (nm : String) (oid : Option Nat) (db : DB)
    (hAB : A ≠ B)
    (hcourse : ∀ c ∈ db.courses, c.id = cid → c.owner = B)
    (hmod : ∀ m ∈ db.modules, m.id = mid →
        ∀ c ∈ db.courses, c.id = m.course → c.owner = B)
    (hct : ∀ ct ∈ db.contents, ct.id = ctid →
        ∀ m ∈ db.modules, m.id = ct.module →
          ∀ c ∈ db.courses, c.id = m.course → c.owner = B)
    (hmidA : getModuleOwned A midA db = some mA)
    (hitem : ∀ i ∈ db.itemsOf ty, i.id = iid → i.owner = B) :
    (∀ c ∈ db.courses, c.owner = B → c ∉ manageCourseList A db)
    ∧ courseUpdateView A cid p db = (db, Response.notFound)
    ∧ courseDeleteView A cid db = (db, Response.notFound)
    ∧ courseModuleUpdateView A cid rows db = (db, BatchResponse.notFound)
    ∧ moduleContentListView A mid db = (db, Response.notFound)
    ∧ contentCreateUpdateView A mid nm oid q db = (db, Response.notFound)
    ∧ contentDeleteView A ctid db = (db, Response.notFound)
    ∧ contentCreateUpdateView A midA ty.name (some iid) q db =
        (db, Response.notFound) := by
  refine ⟨?_, ?_, ?_, ?_, ?_, ?_, ?_, ?_⟩
  · intro c hc hB hmem
    rw [manageCourseList, ownerCourses, List.mem_filter] at hmem
    rcases hmem with ⟨_, hA⟩
    simp only [beq_iff_eq] at hA
    exact hAB (hA.symm.trans hB)
  · simp only [courseUpdateView, ownerGetCourse_none db cid A B hAB hcourse]
  · simp only [courseDeleteView, ownerGetCourse_none db cid A B hAB hcourse]
  · simp only [courseModuleUpdateView,
      getCourseOwned_none db cid A B hAB hcourse]
  · simp only [moduleContentListView,
      getModuleOwned_none db mid A B hAB hmod]
  · simp only [contentCreateUpdateView,
      getModuleOwned_none db mid A B hAB hmod]
  · simp only [contentDeleteView, contentDeleteCore,
      getContentOwned_none db ctid A B hAB hct]
  · simp only [contentCreateUpdateView, hmidA, get_model_name,
      getItemOwned_none db ty iid A B hAB hitem]

/-- Witness for C1 on `dbW` with `A = 1`, `B = 2`: course 10, module 20,
content row 30 and text item 40 all belong to user 2, while module 21
belongs to user 1. -/
theorem ownership_scoping_not_found_witness :
    (∀ c ∈ dbW.courses, c.owner = 2 → c ∉ manageCourseList 1 dbW)
    ∧ courseUpdateView 1 10 pW dbW = (dbW, Response.notFound)
    ∧ courseDeleteView 1 10 dbW = (dbW, Response.notFound)
    ∧ courseModuleUpdateView 1 10 [] dbW = (dbW, BatchResponse.notFound)
    ∧ moduleContentListView 1 20 dbW = (dbW, Response.notFound)
    ∧ contentCreateUpdateView 1 20 "text" none q0 dbW =
        (dbW, Response.notFound)
    ∧ contentDeleteView 1 30 dbW = (dbW, Response.notFound)
    ∧ contentCreateUpdateView 1 21 ItemType.text.name (some 40) q0 dbW =
        (dbW, Response.notFound) :=
  ownership_scoping_not_found 1 2 10 20 30 21 40 ItemType.text
    ⟨21, 11, "AM", ""⟩ pW q0 [] "text" none dbW (by decide) (by decide)
    (by decide) (by decide) (by decide) (by decide)

end EducaCourses
